import Mathlib

/-!
Verification of the ShopTrack inventory-consistency and alerting core.

This file gives a shallow embedding, in Lean, of the Python services under
`app/services` (inventory_monitor.py, alert_dispatcher.py, sales_logger.py,
rush_predictor.py) and the relevant API endpoint boundary checks
(`app/api/v1/endpoints`), and proves or refutes the specified properties of
that code.

Modelling conventions:
- Python integers are unbounded, so quantities, ids and counters are `Int`
  (or `Nat` where the source value is a length/count).
- Timestamps are abstract `Int` instants ordered by `≤`; only comparisons and
  additions of fixed offsets matter to the verified code, never calendar
  structure.  The unit is hours where an offset is added (`expires_in_hours`).
- Monetary amounts are Python floats in the source; no verified property
  depends on rounding, so they are carried as exact `Int` values.
- A SQLAlchemy session is explicit state: each table is a `List` of rows in
  insertion order, `query(...).filter(...).first()` is `List.find?` /
  `List.filter ... |>.head?`, and a bulk `update` is a `List.map`.
- Fallible code returns `Except String` respectively `Option`.
-/

set_option linter.unreachableTactic false
set_option linter.unusedTactic false

namespace ShopTrack

/-- Stock movement types (app/models/inventory.py, `StockMovementType`). -/
inductive StockMovementType where
  | purchase
  | sale
  | adjustment
  | ret
  | damaged
  | expired
  deriving DecidableEq, Repr

/-- One `inventory_levels` row (app/models/inventory.py, `InventoryLevel`):
current, reserved and available quantities for a (product, location) pair. -/
structure InventoryLevel where
  product_id : Int
  current_quantity : Int
  reserved_quantity : Int
  available_quantity : Int
  location_id : String
  deriving DecidableEq, Repr

/-- The quantity-update core of `InventoryMonitor.update_stock_level`
(src/app/services/inventory_monitor.py, lines 83-94): add the signed delta to
`current_quantity`, recompute `available_quantity` as current minus reserved,
then clamp BOTH fields to zero only when the new `current_quantity` is
negative.  No clamp is applied to `available_quantity` on its own. -/
def updateQuantities (inv : InventoryLevel) (quantity : Int) : InventoryLevel :=
  let afterAdd : InventoryLevel :=
    { inv with
      current_quantity := inv.current_quantity + quantity,
      available_quantity := inv.current_quantity + quantity - inv.reserved_quantity }
  if afterAdd.current_quantity < 0 then
    { afterAdd with current_quantity := 0, available_quantity := 0 }
  else
    afterAdd

/-- A concrete pre-state used to exercise `updateQuantities` where the
reserved quantity exceeds the stock on hand. -/
def invReservedSix : InventoryLevel :=
  { product_id := 1, current_quantity := 4, reserved_quantity := 6,
    available_quantity := 0, location_id := "main" }

/-- C1 (counterexample): starting from current_quantity = 4,
reserved_quantity = 6 and applying delta = 1, `update_stock_level` stores
available_quantity = -1, which differs from
max(0, current_quantity - reserved_quantity) = 0 and is negative. -/
theorem updateQuantities_breaks_max_invariant :
    ¬ ((updateQuantities invReservedSix 1).available_quantity =
        max 0 ((updateQuantities invReservedSix 1).current_quantity -
               (updateQuantities invReservedSix 1).reserved_quantity)) ∧
    (updateQuantities invReservedSix 1).available_quantity < 0 := by
  decide

/-- C1 (amended): after `update_stock_level`, the stored available_quantity
equals current + delta - reserved when current + delta ≥ 0, and 0 when the
negative-current clamp fires; consequently whenever
0 ≤ current + delta < reserved the stored available_quantity is negative, so
the invariant `available_quantity = max(0, current − reserved)` fails exactly
on that band. -/
theorem updateQuantities_available_eq (inv : InventoryLevel) (q : Int) :
    ((updateQuantities inv q).available_quantity =
      if inv.current_quantity + q < 0 then 0
      else inv.current_quantity + q - inv.reserved_quantity) ∧
    (0 ≤ inv.current_quantity + q →
      inv.current_quantity + q < inv.reserved_quantity →
      (updateQuantities inv q).available_quantity < 0) := by
  unfold updateQuantities
  dsimp only
  constructor
  · split <;> simp <;> omega
  · intro h1 h2
    split <;> simp <;> omega

/-- Witness for `updateQuantities_available_eq` at the concrete state
`invReservedSix` with delta 1. -/
theorem updateQuantities_available_eq_witness :
    (updateQuantities invReservedSix 1).available_quantity < 0 :=
  (updateQuantities_available_eq invReservedSix 1).2 (by decide) (by decide)

/-- C3: `update_stock_level` sets the new current quantity to
max(0, current + delta) for every delta, of any sign and magnitude, so
current_quantity is never negative after any call. -/
theorem updateQuantities_clamps_current (inv : InventoryLevel) (q : Int) :
    (updateQuantities inv q).current_quantity = max 0 (inv.current_quantity + q) ∧
    0 ≤ (updateQuantities inv q).current_quantity := by
  unfold updateQuantities
  dsimp only
  constructor
  · split <;> simp <;> omega
  · split <;> simp <;> omega

/-- One `products` row (app/models/inventory.py, `Product`), restricted to the
fields the verified services read. -/
structure Product where
  id : Int
  sku : String
  name : String
  min_stock_level : Int
  reorder_point : Int
  max_stock_level : Int
  is_tracked : Bool
  deriving DecidableEq, Repr

/-- Alert types (app/models/alerts.py, `AlertType`). -/
inductive AlertType where
  | low_stock
  | out_of_stock
  | rush_hour
  | high_queue
  | system_error
  | maintenance
  deriving DecidableEq, BEq, Repr

/-- Alert severities (app/models/alerts.py, `AlertSeverity`). -/
inductive AlertSeverity where
  | low
  | medium
  | high
  | critical
  deriving DecidableEq, BEq, Repr

/-- Alert statuses (app/models/alerts.py, `AlertStatus`).  Note the enum has
exactly these four members; there is no EXPIRED status. -/
inductive AlertStatus where
  | active
  | acknowledged
  | resolved
  | dismissed
  deriving DecidableEq, BEq, Repr

/-- The alert decision of `InventoryMonitor._check_stock_alerts`
(src/app/services/inventory_monitor.py, lines 230-281): an if/elif/elif chain
over (new available quantity, previous available quantity) against the
thresholds 0, `min_stock_level` and `reorder_point`, each condition firing
only on a downward crossing, first match wins. -/
def checkStockAlerts (p : Product) (newAvailable previousAvailable : Int) :
    Option (AlertType × AlertSeverity) :=
  if newAvailable ≤ 0 ∧ previousAvailable > 0 then
    some (AlertType.out_of_stock, AlertSeverity.high)
  else if newAvailable ≤ p.min_stock_level ∧ previousAvailable > p.min_stock_level then
    some (AlertType.low_stock, AlertSeverity.medium)
  else if newAvailable ≤ p.reorder_point ∧ previousAvailable > p.reorder_point then
    some (AlertType.low_stock, AlertSeverity.low)
  else
    none

/-- The alerts fired along a sequence of successive available quantities:
one `checkStockAlerts` decision per consecutive pair. -/
def alertsAlongTrace (p : Product) : List Int → List (Option (AlertType × AlertSeverity))
  | a :: b :: rest => checkStockAlerts p b a :: alertsAlongTrace p (b :: rest)
  | _ => []

/-- A product with min_stock_level = 10 (and reorder_point = 10, respecting
the invariant min ≤ reorder without adding a second crossing), as in the
spec's threshold-crossing scenario. -/
def productMin10 : Product :=
  { id := 1, sku := "SKU-1", name := "P", min_stock_level := 10,
    reorder_point := 10, max_stock_level := 100, is_tracked := true }

/-- C2: the stock-alert policy is exactly the ordered, first-match-wins,
downward-crossing policy: OUT_OF_STOCK/HIGH iff new ≤ 0 < previous; otherwise
LOW_STOCK/MEDIUM iff new ≤ min_stock_level < previous; otherwise
LOW_STOCK/LOW iff new ≤ reorder_point < previous; otherwise no alert.  With
min_stock_level = 10, the decrement sequence 15 → 12 → 9 → 6 fires exactly
one alert, LOW_STOCK/MEDIUM at the 12 → 9 step. -/
theorem checkStockAlerts_policy (p : Product) (n prev : Int) :
    (checkStockAlerts p n prev = some (AlertType.out_of_stock, AlertSeverity.high) ↔
      n ≤ 0 ∧ prev > 0) ∧
    (checkStockAlerts p n prev = some (AlertType.low_stock, AlertSeverity.medium) ↔
      ¬(n ≤ 0 ∧ prev > 0) ∧ n ≤ p.min_stock_level ∧ prev > p.min_stock_level) ∧
    (checkStockAlerts p n prev = some (AlertType.low_stock, AlertSeverity.low) ↔
      ¬(n ≤ 0 ∧ prev > 0) ∧ ¬(n ≤ p.min_stock_level ∧ prev > p.min_stock_level) ∧
      n ≤ p.reorder_point ∧ prev > p.reorder_point) ∧
    (checkStockAlerts p n prev = none ↔
      ¬(n ≤ 0 ∧ prev > 0) ∧ ¬(n ≤ p.min_stock_level ∧ prev > p.min_stock_level) ∧
      ¬(n ≤ p.reorder_point ∧ prev > p.reorder_point)) ∧
    (alertsAlongTrace productMin10 [15, 12, 9, 6] =
      [none, some (AlertType.low_stock, AlertSeverity.medium), none]) := by
  refine ⟨?_, ?_, ?_, ?_, by decide⟩ <;>
    · unfold checkStockAlerts
      split <;> try (split <;> try split)
      all_goals simp_all

/-- One `alerts` row (app/models/alerts.py, `Alert`), restricted to the fields
the verified services read or write. -/
structure Alert where
  id : Int
  alert_type : AlertType
  severity : AlertSeverity
  status : AlertStatus
  title : String
  message : String
  product_id : Option Int
  sale_id : Option Int
  created_by : Option String
  acknowledged_by : Option String
  resolved_by : Option String
  created_at : Int
  acknowledged_at : Option Int
  resolved_at : Option Int
  expires_at : Option Int
  is_expired : Bool
  deriving DecidableEq, Repr

/-- Apply `f` to the first element satisfying `p`, leaving the rest unchanged:
the effect of mutating the single ORM object returned by
`query(...).filter(...).first()` inside a session. -/
def setFirst {α : Type} (p : α → Bool) (f : α → α) : List α → List α
  | [] => []
  | a :: rest => if p a then f a :: rest else a :: setFirst p f rest

/-- Row-lookup predicate for `query(Alert).filter(Alert.id == alert_id)`. -/
def alertHasId (alert_id : Int) (a : Alert) : Bool :=
  a.id == alert_id

/-- Source `AlertDispatcher.acknowledge_alert` (src/app/services/alert_dispatcher.py,
lines 196-220): look the alert up by id; if absent return false; otherwise
unconditionally set status to ACKNOWLEDGED together with
acknowledged_by/acknowledged_at and return true.  The current status is never
inspected. -/
def acknowledgeAlert (db : List Alert) (alert_id : Int) (user_id : String) (now : Int) :
    List Alert × Bool :=
  match db.find? (alertHasId alert_id) with
  | none => (db, false)
  | some _ =>
    (setFirst (alertHasId alert_id)
      (fun a => { a with status := AlertStatus.acknowledged,
                         acknowledged_by := some user_id,
                         acknowledged_at := some now }) db, true)

/-- Source `AlertDispatcher.resolve_alert` (lines 222-246): same shape as
`acknowledge_alert` but sets RESOLVED and resolved_by/resolved_at,
again without inspecting the current status. -/
def resolveAlert (db : List Alert) (alert_id : Int) (user_id : String) (now : Int) :
    List Alert × Bool :=
  match db.find? (alertHasId alert_id) with
  | none => (db, false)
  | some _ =>
    (setFirst (alertHasId alert_id)
      (fun a => { a with status := AlertStatus.resolved,
                         resolved_by := some user_id,
                         resolved_at := some now }) db, true)

/-- Source `AlertDispatcher.dismiss_alert` (lines 248-272): sets DISMISSED but, as in
the source, stamps the acknowledged_by/acknowledged_at fields; the current
status is never inspected. -/
def dismissAlert (db : List Alert) (alert_id : Int) (user_id : String) (now : Int) :
    List Alert × Bool :=
  match db.find? (alertHasId alert_id) with
  | none => (db, false)
  | some _ =>
    (setFirst (alertHasId alert_id)
      (fun a => { a with status := AlertStatus.dismissed,
                         acknowledged_by := some user_id,
                         acknowledged_at := some now }) db, true)

/-- If `find?` locates an element, then after `setFirst` with a
predicate-preserving update the same lookup returns the updated element. -/
theorem find?_setFirst {α : Type} (p : α → Bool) (f : α → α) (l : List α) (a : α)
    (hp : ∀ x, p (f x) = p x) (h : l.find? p = some a) :
    (setFirst p f l).find? p = some (f a) := by
  induction l with
  | nil => simp [List.find?] at h
  | cons b rest ih =>
    by_cases hb : p b
    · rw [List.find?_cons_of_pos _ hb] at h
      cases h
      simp only [setFirst, if_pos hb]
      rw [List.find?_cons_of_pos]
      rw [hp]
      exact hb
    · rw [List.find?_cons_of_neg _ hb] at h
      simp only [setFirst, if_neg hb]
      rw [List.find?_cons_of_neg _ hb]
      exact ih h

/-- A concrete alert already in the terminal RESOLVED state. -/
def alertResolvedRow : Alert :=
  { id := 1, alert_type := AlertType.low_stock, severity := AlertSeverity.medium,
    status := AlertStatus.resolved, title := "t", message := "m",
    product_id := none, sale_id := none, created_by := some "system",
    acknowledged_by := none, resolved_by := some "r", created_at := 0,
    acknowledged_at := none, resolved_at := some 5, expires_at := none,
    is_expired := false }

/-- C4 (counterexample): on an alert whose status is RESOLVED (terminal),
`acknowledge_alert` returns true and overwrites the status to ACKNOWLEDGED
instead of failing and leaving the alert unchanged. -/
theorem acknowledge_modifies_terminal_alert :
    (acknowledgeAlert [alertResolvedRow] 1 "u" 10).2 = true ∧
    ((acknowledgeAlert [alertResolvedRow] 1 "u" 10).1.find? (alertHasId 1)).map
        Alert.status = some AlertStatus.acknowledged := by
  decide

/-- C4 (amended): acknowledge_alert, resolve_alert and dismiss_alert perform
their transition for every alert present in the store, regardless of its
current status — terminal alerts included — returning true and overwriting
the status and stamp fields (dismiss stamps the acknowledged fields); only a
missing alert id yields false, and then the store is unchanged. -/
theorem alertTransitions_ignore_status (db : List Alert) (i : Int) (u : String)
    (t : Int) (a : Alert) (hfind : db.find? (alertHasId i) = some a) :
    (acknowledgeAlert db i u t).2 = true ∧
    (resolveAlert db i u t).2 = true ∧
    (dismissAlert db i u t).2 = true ∧
    ((acknowledgeAlert db i u t).1.find? (alertHasId i) =
      some { a with status := AlertStatus.acknowledged,
                    acknowledged_by := some u, acknowledged_at := some t }) ∧
    ((resolveAlert db i u t).1.find? (alertHasId i) =
      some { a with status := AlertStatus.resolved,
                    resolved_by := some u, resolved_at := some t }) ∧
    ((dismissAlert db i u t).1.find? (alertHasId i) =
      some { a with status := AlertStatus.dismissed,
                    acknowledged_by := some u, acknowledged_at := some t }) ∧
    (∀ db' : List Alert, db'.find? (alertHasId i) = none →
      acknowledgeAlert db' i u t = (db', false) ∧
      resolveAlert db' i u t = (db', false) ∧
      dismissAlert db' i u t = (db', false)) := by
  refine ⟨?_, ?_, ?_, ?_, ?_, ?_, ?_⟩
  · simp [acknowledgeAlert, hfind]
  · simp [resolveAlert, hfind]
  · simp [dismissAlert, hfind]
  · simp only [acknowledgeAlert, hfind]
    exact find?_setFirst _ _ _ _ (fun x => rfl) hfind
  · simp only [resolveAlert, hfind]
    exact find?_setFirst _ _ _ _ (fun x => rfl) hfind
  · simp only [dismissAlert, hfind]
    exact find?_setFirst _ _ _ _ (fun x => rfl) hfind
  · intro db' hnone
    exact ⟨by simp [acknowledgeAlert, hnone], by simp [resolveAlert, hnone],
           by simp [dismissAlert, hnone]⟩

/-- Witness for `alertTransitions_ignore_status` at a store holding one
RESOLVED alert: resolve and dismiss both report success on it. -/
theorem alertTransitions_ignore_status_witness :
    (resolveAlert [alertResolvedRow] 1 "u" 10).2 = true ∧
    (dismissAlert [alertResolvedRow] 1 "u" 10).2 = true :=
  ⟨(alertTransitions_ignore_status [alertResolvedRow] 1 "u" 10 alertResolvedRow
      (by decide)).2.1,
   (alertTransitions_ignore_status [alertResolvedRow] 1 "u" 10 alertResolvedRow
      (by decide)).2.2.1⟩

/-- The row filter of `AlertDispatcher.cleanup_expired_alerts`
(src/app/services/alert_dispatcher.py, lines 335-339):
`status == ACTIVE and expires_at <= now`; a NULL expires_at never matches. -/
def expiredMatch (now : Int) (a : Alert) : Bool :=
  (a.status == AlertStatus.active) &&
    (match a.expires_at with
     | some t => decide (t ≤ now)
     | none => false)

/-- The per-row effect of the bulk update in `cleanup_expired_alerts`
(lines 340-342): matching rows get `is_expired := True`; the status column is
NOT touched (and `AlertStatus` has no EXPIRED member to set). -/
def cleanupStep (now : Int) (a : Alert) : Alert :=
  if expiredMatch now a then { a with is_expired := true } else a

/-- Source `AlertDispatcher.cleanup_expired_alerts` (lines 330-351): bulk-update the
matching rows and return the matched-row count reported by the update. -/
def cleanupExpiredAlerts (db : List Alert) (now : Int) : List Alert × Nat :=
  (db.map (cleanupStep now), (db.filter (expiredMatch now)).length)

theorem cleanupStep_status (now : Int) (a : Alert) :
    (cleanupStep now a).status = a.status := by
  unfold cleanupStep
  split <;> rfl

theorem expiredMatch_cleanupStep (now : Int) (a : Alert) :
    expiredMatch now (cleanupStep now a) = expiredMatch now a := by
  unfold cleanupStep
  split <;> rfl

theorem cleanupStep_idem (now : Int) (a : Alert) :
    cleanupStep now (cleanupStep now a) = cleanupStep now a := by
  unfold cleanupStep
  by_cases h : expiredMatch now a
  · simp only [if_pos h]
    have h2 : expiredMatch now { a with is_expired := true } = expiredMatch now a := rfl
    simp only [h2, if_pos h]
  · simp only [if_neg h]

/-- A concrete ACTIVE alert whose expiry instant (5) is already past at
time 10. -/
def alertActiveOverdue : Alert :=
  { id := 2, alert_type := AlertType.low_stock, severity := AlertSeverity.low,
    status := AlertStatus.active, title := "t", message := "m",
    product_id := none, sale_id := none, created_by := some "system",
    acknowledged_by := none, resolved_by := none, created_at := 0,
    acknowledged_at := none, resolved_at := none, expires_at := some 5,
    is_expired := false }

/-- C5 (counterexample): on a store holding one ACTIVE alert whose expiry has
passed, `cleanup_expired_alerts` returns 1 but leaves the status ACTIVE (it
only raises the `is_expired` flag; the status enum has no EXPIRED member at
all), and an immediate second call matches the same row again and returns 1,
not 0. -/
theorem cleanup_second_call_not_zero :
    (cleanupExpiredAlerts [alertActiveOverdue] 10).2 = 1 ∧
    ((cleanupExpiredAlerts [alertActiveOverdue] 10).1.map Alert.status =
      [AlertStatus.active]) ∧
    (cleanupExpiredAlerts (cleanupExpiredAlerts [alertActiveOverdue] 10).1 10).2 = 1 := by
  decide

/-- C5 (amended): `cleanup_expired_alerts` sets `is_expired := true` on every
ACTIVE alert whose expires_at ≤ now and returns the number of such alerts; it
never changes any status column (no EXPIRED status exists).  A second
immediate call leaves the store unchanged (the flag update is idempotent) but
returns the SAME count again, not 0, because the matched rows still satisfy
`status = ACTIVE and expires_at ≤ now`. -/
theorem cleanup_marks_flag_only (db : List Alert) (now : Int) :
    ((cleanupExpiredAlerts db now).1.map Alert.status = db.map Alert.status) ∧
    (∀ a ∈ db, expiredMatch now a = true →
      { a with is_expired := true } ∈ (cleanupExpiredAlerts db now).1) ∧
    (cleanupExpiredAlerts (cleanupExpiredAlerts db now).1 now =
      ((cleanupExpiredAlerts db now).1, (cleanupExpiredAlerts db now).2)) := by
  refine ⟨?_, ?_, ?_⟩
  · induction db with
    | nil => rfl
    | cons a rest ih =>
      simp only [cleanupExpiredAlerts, List.map_cons] at ih ⊢
      rw [cleanupStep_status, ih]
  · intro a ha hm
    simp only [cleanupExpiredAlerts, List.mem_map]
    exact ⟨a, ha, by simp [cleanupStep, hm]⟩
  · have hmap : ∀ l : List Alert, (l.map (cleanupStep now)).map (cleanupStep now) =
        l.map (cleanupStep now) := by
      intro l
      induction l with
      | nil => rfl
      | cons a rest ih =>
        simp only [List.map_cons, cleanupStep_idem, ih]
    have hfil : ∀ l : List Alert,
        ((l.map (cleanupStep now)).filter (expiredMatch now)).length =
          (l.filter (expiredMatch now)).length := by
      intro l
      induction l with
      | nil => rfl
      | cons a rest ih =>
        simp only [List.map_cons, List.filter_cons, expiredMatch_cleanupStep]
        by_cases h : expiredMatch now a
        · rw [if_pos h, if_pos h]
          simp [ih]
        · rw [if_neg h, if_neg h]
          exact ih
    simp only [cleanupExpiredAlerts]
    exact Prod.ext (hmap db) (hfil db)

/-- Payment methods (app/models/sales.py, `PaymentMethod`). -/
inductive PaymentMethod where
  | cash
  | card
  | mobile
  | other
  deriving DecidableEq, Repr

/-- Python `PaymentMethod(value)`: enum construction from its string value; an
unknown value raises ValueError, modelled as `none`. -/
def paymentMethodOfString (s : String) : Option PaymentMethod :=
  if s = "cash" then some PaymentMethod.cash
  else if s = "card" then some PaymentMethod.card
  else if s = "mobile" then some PaymentMethod.mobile
  else if s = "other" then some PaymentMethod.other
  else none

/-- One `stock_movements` row (app/models/inventory.py, `StockMovement`). -/
structure StockMovementRec where
  product_id : Int
  movement_type : StockMovementType
  quantity : Int
  previous_quantity : Int
  new_quantity : Int
  reference_id : Option String
  reference_type : Option String
  user_id : Option String
  notes : Option String
  location_id : String
  deriving DecidableEq, Repr

/-- One `sales` row (app/models/sales.py, `Sale`); status defaults to
"completed" per the column default. -/
structure SaleRec where
  id : Int
  transaction_id : String
  cashier_id : String
  customer_id : Option String
  payment_method : PaymentMethod
  subtotal : Int
  tax_amount : Int
  discount_amount : Int
  total_amount : Int
  status : String
  notes : Option String
  completed_at : Int
  deriving DecidableEq, Repr

/-- One `sale_items` row (app/models/sales.py, `SaleItem`); product name and
sku are denormalized at commit time. -/
structure SaleItemRec where
  sale_id : Int
  product_id : Int
  product_name : String
  sku : String
  quantity : Int
  unit_price : Int
  total_price : Int
  deriving DecidableEq, Repr

/-- One line item of a sale request (`sale_data["items"]` entries). -/
structure SaleItemReq where
  product_id : Int
  quantity : Int
  unit_price : Int
  deriving DecidableEq, Repr

/-- The `sale_data` dictionary accepted by `SalesLogger.record_sale`. -/
structure SaleRequest where
  cashier_id : String
  customer_id : Option String
  payment_method : String
  items : List SaleItemReq
  subtotal : Int
  tax_amount : Int
  discount_amount : Int
  total_amount : Int
  notes : Option String
  deriving DecidableEq, Repr

/-- The result dictionary returned by `record_sale` on success. -/
structure SaleResult where
  transaction_id : String
  sale_id : Int
  status : String
  total_amount : Int
  items_count : Nat
  deriving DecidableEq, Repr

/-- The database state the verified services read and write: one list of rows
per table, in insertion order, plus the autoincrement counters.  SQLAlchemy
`id` assignment on flush is modelled by the `next_*` counters. -/
structure StockDB where
  products : List Product
  levels : List InventoryLevel
  movements : List StockMovementRec
  sales : List SaleRec
  sale_items : List SaleItemRec
  alerts : List Alert
  next_sale_id : Int
  next_alert_id : Int
  deriving DecidableEq, Repr

/-- Row filter for the (product, location) key of `inventory_levels`. -/
def levelMatches (pid : Int) (loc : String) (l : InventoryLevel) : Bool :=
  l.product_id == pid && l.location_id == loc

/-- Title of the alert created by `_check_stock_alerts`, by fired branch. -/
def stockAlertTitle (ty : AlertType) (sev : AlertSeverity) (p : Product) : String :=
  if ty == AlertType.out_of_stock then "Product Out of Stock: " ++ p.name
  else if sev == AlertSeverity.medium then "Low Stock Alert: " ++ p.name
  else "Reorder Point Reached: " ++ p.name

/-- Message of the alert created by `_check_stock_alerts`, by fired branch. -/
def stockAlertMessage (ty : AlertType) (sev : AlertSeverity) (p : Product)
    (newAvailable : Int) : String :=
  if ty == AlertType.out_of_stock then
    "Product " ++ p.name ++ " (SKU: " ++ p.sku ++ ") is now out of stock."
  else if sev == AlertSeverity.medium then
    "Product " ++ p.name ++ " (SKU: " ++ p.sku ++ ") is running low on stock. Current: "
      ++ toString newAvailable ++ ", Min: " ++ toString p.min_stock_level
  else
    "Product " ++ p.name ++ " (SKU: " ++ p.sku ++ ") has reached reorder point. Consider restocking."

/-- Source `InventoryMonitor.update_stock_level`
(src/app/services/inventory_monitor.py, lines 28-131), as a state
transformer on the session's tables: look the product up (error if absent);
read or lazily create the (product, location) inventory row with zero
quantities; apply `updateQuantities`; write the row back; append one
StockMovement with the previous/new snapshot; then run `_check_stock_alerts`,
which appends at most one alert per `checkStockAlerts` (created via
`AlertDispatcher.create_alert` with status ACTIVE, created_by "system" and
expires_at = now + 24 hours). -/
def updateStockLevel (db : StockDB) (pid quantity : Int) (mtype : StockMovementType)
    (refId refType userId notes : Option String) (loc : String) (now : Int) :
    Except String StockDB :=
  match db.products.find? (fun p => p.id == pid) with
  | none => Except.error ("Product " ++ toString pid ++ " not found")
  | some product =>
    let freshRow : InventoryLevel :=
      { product_id := pid, current_quantity := 0, reserved_quantity := 0,
        available_quantity := 0, location_id := loc }
    let found := (db.levels.filter (levelMatches pid loc)).head?
    let lvl := found.getD freshRow
    let db1 : StockDB :=
      match found with
      | some _ => db
      | none => { db with levels := db.levels ++ [freshRow] }
    let previous_quantity := lvl.current_quantity
    let previous_available := lvl.available_quantity
    let lvl2 := updateQuantities lvl quantity
    let db2 := { db1 with levels := setFirst (levelMatches pid loc) (fun _ => lvl2) db1.levels }
    let db3 := { db2 with
      movements := db2.movements ++ [{
        product_id := pid, movement_type := mtype, quantity := quantity,
        previous_quantity := previous_quantity, new_quantity := lvl2.current_quantity,
        reference_id := refId, reference_type := refType, user_id := userId,
        notes := notes, location_id := loc }] }
    match checkStockAlerts product lvl2.available_quantity previous_available with
    | some (ty, sev) =>
      Except.ok { db3 with
        alerts := db3.alerts ++ [{
          id := db3.next_alert_id, alert_type := ty, severity := sev,
          status := AlertStatus.active,
          title := stockAlertTitle ty sev product,
          message := stockAlertMessage ty sev product lvl2.available_quantity,
          product_id := some product.id, sale_id := none,
          created_by := some "system", acknowledged_by := none, resolved_by := none,
          created_at := now, acknowledged_at := none, resolved_at := none,
          expires_at := some (now + 24), is_expired := false }],
        next_alert_id := db3.next_alert_id + 1 }
    | none => Except.ok db3

/-- Source `SalesLogger._validate_inventory` (src/app/services/sales_logger.py,
lines 130-148): for each item, look up a TRACKED product by id (error if
absent); then, only if the product has at least one related inventory row,
compare the FIRST row's available_quantity against the requested quantity.
A tracked product with no inventory rows is not checked at all. -/
def validateInventory (db : StockDB) : List SaleItemReq → Except String Unit
  | [] => Except.ok ()
  | item :: rest =>
    match db.products.find? (fun p => p.id == item.product_id && p.is_tracked) with
    | none =>
      Except.error ("Product " ++ toString item.product_id ++ " not found or not tracked")
    | some p =>
      match (db.levels.filter (fun l => l.product_id == p.id)).head? with
      | some lvl =>
        if lvl.available_quantity < item.quantity then
          Except.error ("Insufficient stock for product " ++ toString item.product_id)
        else
          validateInventory db rest
      | none => validateInventory db rest

/-- The item loop of `record_sale` (lines 79-106): for each item, look the
product up by id (error if absent), append a SaleItem denormalizing
name/sku, then decrement stock through `updateStockLevel` with a negative
delta tagged `movement_type=SALE`, `reference_type="sale"`. -/
def processItems (db : StockDB) (sale_id : Int) (now : Int) :
    List SaleItemReq → Except String StockDB
  | [] => Except.ok db
  | item :: rest =>
    match db.products.find? (fun p => p.id == item.product_id) with
    | none => Except.error ("Product " ++ toString item.product_id ++ " not found")
    | some product =>
      let db1 := { db with
        sale_items := db.sale_items ++ [{
          sale_id := sale_id, product_id := item.product_id,
          product_name := product.name, sku := product.sku,
          quantity := item.quantity, unit_price := item.unit_price,
          total_price := item.quantity * item.unit_price }] }
      match updateStockLevel db1 item.product_id (-item.quantity) StockMovementType.sale
          (some (toString sale_id)) (some "sale") none none "main" now with
      | Except.error e => Except.error e
      | Except.ok db2 => processItems db2 sale_id now rest

/-- The body of `record_sale`'s transaction (lines 60-124): parse the payment
method (ValueError on an unknown value), insert the Sale row and flush to get
its id, run the item loop, and report the result dictionary. -/
def recordSaleTx (db : StockDB) (req : SaleRequest) (txid : String) (now : Int) :
    Except String (StockDB × SaleResult) :=
  match paymentMethodOfString req.payment_method with
  | none => Except.error ("Invalid payment method: " ++ req.payment_method)
  | some pm =>
    let sale_id := db.next_sale_id
    let db1 := { db with
      sales := db.sales ++ [{
        id := sale_id, transaction_id := txid, cashier_id := req.cashier_id,
        customer_id := req.customer_id, payment_method := pm,
        subtotal := req.subtotal, tax_amount := req.tax_amount,
        discount_amount := req.discount_amount, total_amount := req.total_amount,
        status := "completed", notes := req.notes, completed_at := now }],
      next_sale_id := db.next_sale_id + 1 }
    match processItems db1 sale_id now req.items with
    | Except.error e => Except.error e
    | Except.ok db2 =>
      let result : SaleResult :=
        { transaction_id := txid, sale_id := sale_id, status := "completed",
          total_amount := req.total_amount, items_count := req.items.length }
      Except.ok (db2, result)

/-- Source `SalesLogger.record_sale` (lines 28-128): reject empty item lists, run
the advisory inventory pre-check, then the transaction.  The session context
commits on success and rolls back on any exception
(`get_db_context` lives in app/core/database.py, which is not part of the
sources; its commit-on-success / rollback-on-exception semantics are
modelled from the spec), so on error the original state is returned. -/
def recordSale (db : StockDB) (req : SaleRequest) (txid : String) (now : Int) :
    StockDB × Except String SaleResult :=
  if req.items.isEmpty then
    (db, Except.error "Sale must contain at least one item")
  else
    match validateInventory db req.items with
    | Except.error e => (db, Except.error e)
    | Except.ok _ =>
      match recordSaleTx db req txid now with
      | Except.ok (db2, r) => (db2, Except.ok r)
      | Except.error e => (db, Except.error e)

/-- Counting effect of one `updateStockLevel` call: exactly one movement row
is appended, and the sales / sale_items tables and the sale counter are
untouched. -/
theorem updateStockLevel_counts (db : StockDB) (pid q : Int) (mt : StockMovementType)
    (r1 r2 u n : Option String) (loc : String) (now : Int) (db2 : StockDB)
    (h : updateStockLevel db pid q mt r1 r2 u n loc now = Except.ok db2) :
    db2.movements.length = db.movements.length + 1 ∧
    db2.sales = db.sales ∧
    db2.sale_items = db.sale_items ∧
    db2.products = db.products ∧
    db2.next_sale_id = db.next_sale_id := by
  unfold updateStockLevel at h
  split at h
  · simp at h
  · dsimp only at h
    split at h <;> split at h <;>
      (cases h; refine ⟨?_, rfl, rfl, rfl, rfl⟩ <;> simp)

/-- Counting effect of the item loop: one SaleItem and one movement per item,
sales and the sale counter untouched. -/
theorem processItems_counts (sale_id : Int) (now : Int) (items : List SaleItemReq) :
    ∀ (db db2 : StockDB), processItems db sale_id now items = Except.ok db2 →
    db2.sale_items.length = db.sale_items.length + items.length ∧
    db2.movements.length = db.movements.length + items.length ∧
    db2.sales = db.sales ∧
    db2.next_sale_id = db.next_sale_id := by
  induction items with
  | nil =>
    intro db db2 h
    unfold processItems at h
    cases h
    simp
  | cons item rest ih =>
    intro db db2 h
    unfold processItems at h
    split at h
    · simp at h
    · dsimp only at h
      split at h
      · simp at h
      · rename_i db3 heq
        have hu := updateStockLevel_counts _ _ _ _ _ _ _ _ _ _ _ heq
        have hp := ih _ _ h
        simp only [List.length_append, List.length_cons, List.length_nil] at hu hp ⊢
        constructor
        · rw [hp.1, hu.2.2.1]
          try simp only [List.length_append, List.length_cons, List.length_nil]
          omega
        constructor
        · rw [hp.2.1, hu.1]
          try simp only [List.length_append, List.length_cons, List.length_nil]
          omega
        constructor
        · rw [hp.2.2.1, hu.2.1]
        · rw [hp.2.2.2, hu.2.2.2.2]

/-- Helper: `recordSale` either fails returning the untouched input state, or
succeeds with the state and result produced by the transaction body. -/
theorem recordSale_cases (db : StockDB) (req : SaleRequest) (txid : String) (now : Int) :
    (∃ e, recordSale db req txid now = (db, Except.error e)) ∨
    (∃ db2 r, recordSale db req txid now = (db2, Except.ok r) ∧
      recordSaleTx db req txid now = Except.ok (db2, r)) := by
  unfold recordSale
  split
  · exact Or.inl ⟨_, rfl⟩
  · split
    · exact Or.inl ⟨_, rfl⟩
    · split
      · rename_i db2 pr heq
        exact Or.inr ⟨db2, pr, rfl, by rw [heq]⟩
      · exact Or.inl ⟨_, rfl⟩

/-- Counting effect of a successful transaction body: one Sale row, one
SaleItem and one StockMovement per requested item. -/
theorem recordSaleTx_counts (db : StockDB) (req : SaleRequest) (txid : String)
    (now : Int) (db2 : StockDB) (r : SaleResult)
    (h : recordSaleTx db req txid now = Except.ok (db2, r)) :
    db2.sales.length = db.sales.length + 1 ∧
    db2.sale_items.length = db.sale_items.length + req.items.length ∧
    db2.movements.length = db.movements.length + req.items.length ∧
    r.items_count = req.items.length ∧ r.transaction_id = txid := by
  unfold recordSaleTx at h
  split at h
  · simp at h
  · dsimp only at h
    split at h
    · simp at h
    · rename_i db3 heq
      cases h
      have hp := processItems_counts _ _ _ _ _ heq
      refine ⟨?_, ?_, ?_, rfl, rfl⟩
      · rw [hp.2.2.1]
        try simp
      · rw [hp.1]
        try simp
      · rw [hp.2.1]
        try simp

/-- C7: record_sale is atomic over the modelled transactional session: on any
failure (empty items, failed validation, unknown payment method, or a missing
product at any position of the item loop) the returned state is exactly the
input state — no Sale, SaleItem, StockMovement or inventory change is
observable — and on success exactly one Sale, one SaleItem per requested item
and one StockMovement per requested item are committed. -/
theorem recordSale_atomic (db : StockDB) (req : SaleRequest) (txid : String) (now : Int) :
    (∀ e, (recordSale db req txid now).2 = Except.error e →
      (recordSale db req txid now).1 = db) ∧
    (∀ r, (recordSale db req txid now).2 = Except.ok r →
      (recordSale db req txid now).1.sales.length = db.sales.length + 1 ∧
      (recordSale db req txid now).1.sale_items.length =
        db.sale_items.length + req.items.length ∧
      (recordSale db req txid now).1.movements.length =
        db.movements.length + req.items.length ∧
      r.items_count = req.items.length ∧ r.transaction_id = txid) := by
  rcases recordSale_cases db req txid now with ⟨e, he⟩ | ⟨db2, r0, heq, htx⟩
  · constructor
    · intro e' _
      rw [he]
    · intro r hr
      rw [he] at hr
      simp at hr
  · constructor
    · intro e' h'
      rw [heq] at h'
      simp at h'
    · intro r hr
      rw [heq] at hr ⊢
      simp only at hr
      cases hr
      exact recordSaleTx_counts db req txid now db2 r0 htx

/-- A tracked product with stock on hand. -/
def productOneRow : Product :=
  { id := 1, sku := "SKU-1", name := "One", min_stock_level := 0,
    reorder_point := 0, max_stock_level := 100, is_tracked := true }

/-- Ten units of product 1 on hand at the main location. -/
def levelTenRow : InventoryLevel :=
  { product_id := 1, current_quantity := 10, reserved_quantity := 0,
    available_quantity := 10, location_id := "main" }

/-- A database holding product 1 with ten units available. -/
def dbStocked : StockDB :=
  { products := [productOneRow], levels := [levelTenRow],
    movements := [], sales := [], sale_items := [], alerts := [],
    next_sale_id := 1, next_alert_id := 1 }

/-- A one-item request for two units of product 1. -/
def reqTwo : SaleRequest :=
  { cashier_id := "c", customer_id := none, payment_method := "card",
    items := [{ product_id := 1, quantity := 2, unit_price := 3 }],
    subtotal := 6, tax_amount := 0, discount_amount := 0, total_amount := 6,
    notes := none }

/-- The result of the successful two-unit sale. -/
def resultTwo : SaleResult :=
  { transaction_id := "TXN-B", sale_id := 1, status := "completed",
    total_amount := 6, items_count := 1 }

/-- Witness for `recordSale_atomic`: a concrete successful sale commits one
Sale row and one movement. -/
theorem recordSale_atomic_witness :
    (recordSale dbStocked reqTwo "TXN-B" 0).1.sales.length = 1 ∧
    (recordSale dbStocked reqTwo "TXN-B" 0).1.movements.length = 1 := by
  have h := (recordSale_atomic dbStocked reqTwo "TXN-B" 0).2 resultTwo (by rfl)
  exact ⟨h.1.trans (by decide), h.2.2.1.trans (by decide)⟩

/-- An item whose tracked product has a first inventory row with insufficient
available stock — the situation `_validate_inventory` rejects. -/
def itemInsufficient (db : StockDB) (item : SaleItemReq) : Prop :=
  ∃ p, db.products.find? (fun q => q.id == item.product_id && q.is_tracked) = some p ∧
    ∃ lvl, (db.levels.filter (fun l => l.product_id == p.id)).head? = some lvl ∧
      lvl.available_quantity < item.quantity

/-- If the pre-check passes, no requested item was insufficient in the sense
actually checked by the code. -/
theorem validateInventory_ok_sound (db : StockDB) :
    ∀ items : List SaleItemReq, validateInventory db items = Except.ok () →
    ∀ item ∈ items, ¬ itemInsufficient db item := by
  intro items
  induction items with
  | nil =>
    intro _ item hmem
    simp at hmem
  | cons a rest ih =>
    intro h item hmem
    unfold validateInventory at h
    rcases List.mem_cons.mp hmem with hitem | hitem
    · subst hitem
      rintro ⟨p, hp, lvl, hlvl, hq⟩
      rw [hp] at h
      dsimp only at h
      rw [hlvl] at h
      dsimp only at h
      rw [if_pos hq] at h
      simp at h
    · split at h
      · simp at h
      · rename_i p hp
        split at h
        · rename_i lvl hlvl
          split at h
          · simp at h
          · exact ih h item hitem
        · exact ih h item hitem

/-- C6 (amended): record_sale rejects empty item lists with the validation
error, and whenever some requested item exceeds the first inventory row of
its tracked product the whole call fails and the state is unchanged; but the
check only runs when at least one inventory row exists — a tracked product
with no inventory row passes for any quantity. -/
theorem recordSale_rejects (db : StockDB) (req : SaleRequest) (txid : String) (now : Int) :
    (req.items = [] →
      recordSale db req txid now = (db, Except.error "Sale must contain at least one item")) ∧
    ((∃ item ∈ req.items, itemInsufficient db item) →
      ∃ e, recordSale db req txid now = (db, Except.error e)) := by
  constructor
  · intro h
    unfold recordSale
    rw [if_pos (by rw [h]; rfl)]
  · intro hex
    have hval : ∃ e, validateInventory db req.items = Except.error e := by
      cases hv : validateInventory db req.items with
      | ok u =>
        cases u
        obtain ⟨item, hmem, hins⟩ := hex
        exact absurd hins (validateInventory_ok_sound db req.items hv item hmem)
      | error e => exact ⟨e, rfl⟩
    obtain ⟨e, he⟩ := hval
    have hne : req.items.isEmpty = false := by
      obtain ⟨item, hmem, -⟩ := hex
      cases hi : req.items with
      | nil => rw [hi] at hmem; simp at hmem
      | cons a t => rfl
    refine ⟨e, ?_⟩
    unfold recordSale
    rw [hne]
    simp only [Bool.false_eq_true, if_false]
    rw [he]

/-- The empty-items request. -/
def reqEmpty : SaleRequest :=
  { cashier_id := "c", customer_id := none, payment_method := "cash",
    items := [], subtotal := 0, tax_amount := 0, discount_amount := 0,
    total_amount := 0, notes := none }

/-- A request for 11 units of product 1, one more than is available. -/
def reqEleven : SaleRequest :=
  { cashier_id := "c", customer_id := none, payment_method := "cash",
    items := [{ product_id := 1, quantity := 11, unit_price := 3 }],
    subtotal := 33, tax_amount := 0, discount_amount := 0, total_amount := 33,
    notes := none }

/-- Witness for `recordSale_rejects`: the empty request is rejected, and a
request for 11 units against 10 available is rejected with the state
unchanged. -/
theorem recordSale_rejects_witness :
    recordSale dbStocked reqEmpty "TXN-C" 0 =
      (dbStocked, Except.error "Sale must contain at least one item") ∧
    ∃ e, recordSale dbStocked reqEleven "TXN-D" 0 = (dbStocked, Except.error e) := by
  constructor
  · exact (recordSale_rejects dbStocked reqEmpty "TXN-C" 0).1 rfl
  · exact (recordSale_rejects dbStocked reqEleven "TXN-D" 0).2
      ⟨{ product_id := 1, quantity := 11, unit_price := 3 },
        List.mem_singleton.mpr rfl,
        productOneRow, rfl, levelTenRow, rfl, by decide⟩

/-- A tracked product that has no inventory row at all. -/
def productSevenRow : Product :=
  { id := 7, sku := "SKU-7", name := "Seven", min_stock_level := 0,
    reorder_point := 0, max_stock_level := 100, is_tracked := true }

/-- A database holding only product 7, with NO inventory rows. -/
def dbNoRows : StockDB :=
  { products := [productSevenRow],
    levels := [], movements := [], sales := [], sale_items := [], alerts := [],
    next_sale_id := 1, next_alert_id := 1 }

/-- The five-unit request against the row-less product 7. -/
def reqFive : SaleRequest :=
  { cashier_id := "c", customer_id := none, payment_method := "cash",
    items := [{ product_id := 7, quantity := 5, unit_price := 2 }],
    subtotal := 10, tax_amount := 0, discount_amount := 0, total_amount := 10,
    notes := none }

/-- C6 (counterexample): a tracked product with no inventory row — available
quantity de facto zero — does NOT make record_sale fail: the availability
check is skipped (`if inventory_level.inventory_levels and ...` short-circuits
on the empty relationship) and the sale of 5 units commits successfully. -/
theorem no_inventory_row_sale_passes :
    validateInventory dbNoRows reqFive.items = Except.ok () ∧
    (recordSale dbNoRows reqFive "TXN-A" 0).2 =
      Except.ok { transaction_id := "TXN-A", sale_id := 1, status := "completed",
                  total_amount := 10, items_count := 1 } :=
  ⟨rfl, rfl⟩

/-- Clamp applied by the predictions endpoints
(src/app/api/v1/endpoints/predictions.py, lines 28-29 and 53-54):
`if hours_ahead > 168: hours_ahead = 168`. -/
def clampHoursAhead (hours_ahead : Int) : Int :=
  if hours_ahead > 168 then 168 else hours_ahead

/-- Clamp applied by the alert-statistics endpoint
(src/app/api/v1/endpoints/alerts.py, lines 158-159):
`if days > 365: days = 365`. -/
def clampStatisticsDays (days : Int) : Int :=
  if days > 365 then 365 else days

/-- Cap applied by the stock-movements endpoint
(src/app/api/v1/endpoints/inventory.py, lines 112-113):
`if limit > 500: limit = 500`. -/
def clampMovementsLimit (limit : Int) : Int :=
  if limit > 500 then 500 else limit

/-- Insertion step of `order_by(desc(Alert.created_at))`. -/
def insertByCreatedDesc (a : Alert) : List Alert → List Alert
  | [] => [a]
  | b :: rest =>
    if decide (b.created_at ≤ a.created_at) then a :: b :: rest
    else b :: insertByCreatedDesc a rest

/-- Sorting `order_by(desc(Alert.created_at))` as an insertion sort. -/
def sortByCreatedDesc : List Alert → List Alert
  | [] => []
  | a :: rest => insertByCreatedDesc a (sortByCreatedDesc rest)

/-- Source `AlertDispatcher.get_active_alerts` (src/app/services/alert_dispatcher.py,
lines 156-194) as called from the endpoint
(src/app/api/v1/endpoints/alerts.py, lines 26-65): filter ACTIVE, optionally
filter by type and severity, order by created_at descending, take `limit`
rows.  The endpoint passes its `limit` query parameter straight through —
unlike the other endpoints, NO cap is applied on this path. -/
def getActiveAlerts (db : List Alert) (ty : Option AlertType)
    (sev : Option AlertSeverity) (limit : Nat) : List Alert :=
  let q1 := db.filter (fun a => a.status == AlertStatus.active)
  let q2 := match ty with
    | some t => q1.filter (fun a => a.alert_type == t)
    | none => q1
  let q3 := match sev with
    | some s => q2.filter (fun a => a.severity == s)
    | none => q2
  (sortByCreatedDesc q3).take limit

theorem insertByCreatedDesc_length (a : Alert) (l : List Alert) :
    (insertByCreatedDesc a l).length = l.length + 1 := by
  induction l with
  | nil => rfl
  | cons b rest ih =>
    unfold insertByCreatedDesc
    split
    · rfl
    · simp only [List.length_cons, ih]

theorem sortByCreatedDesc_length (l : List Alert) :
    (sortByCreatedDesc l).length = l.length := by
  induction l with
  | nil => rfl
  | cons a rest ih =>
    unfold sortByCreatedDesc
    rw [insertByCreatedDesc_length, ih]
    rfl

theorem getActiveAlerts_length (db : List Alert) (limit : Nat) :
    (getActiveAlerts db none none limit).length =
      min limit (db.filter (fun a => a.status == AlertStatus.active)).length := by
  unfold getActiveAlerts
  rw [List.length_take, sortByCreatedDesc_length]

/-- An ACTIVE alert row with no expiry. -/
def alertActiveRow : Alert :=
  { id := 3, alert_type := AlertType.low_stock, severity := AlertSeverity.low,
    status := AlertStatus.active, title := "t", message := "m",
    product_id := none, sale_id := none, created_by := some "system",
    acknowledged_by := none, resolved_by := none, created_at := 0,
    acknowledged_at := none, resolved_at := none, expires_at := none,
    is_expired := false }

theorem length_filter_replicate_active (n : Nat) :
    ((List.replicate n alertActiveRow).filter
      (fun a => a.status == AlertStatus.active)).length = n := by
  induction n with
  | zero => rfl
  | succ k ih =>
    rw [List.replicate_succ, List.filter_cons]
    show ((List.replicate k alertActiveRow).filter
      (fun a => a.status == AlertStatus.active)).length + 1 = k + 1
    rw [ih]

/-- C8 (counterexample): with 501 active alerts in the store, the endpoint
call `get_active_alerts(limit=501)` returns 501 rows — the claimed 500-cap
does not exist on this path. -/
theorem active_alerts_limit_uncapped :
    (getActiveAlerts (List.replicate 501 alertActiveRow) none none 501).length = 501 := by
  rw [getActiveAlerts_length, length_filter_replicate_active]
  rfl

/-- The fitted regression artifact held by `RushPredictor`
(src/app/services/rush_predictor.py).  The sklearn RandomForest internals are
external library code; the artifact is modelled as its evaluation function on
a feature vector, which is all the verified code paths use of it. -/
structure RushModel where
  predictTransactions : List Int → Int

/-- The model-holding state of a `RushPredictor` instance; `rush_model` is
`None` on a fresh instance (constructor, line 33) until a successful
training run replaces it. -/
structure PredictorState where
  rush_model : Option RushModel

/-- Source `RushPredictor._train_model` (lines 55-100): when fewer than 100
historical data points are available, training is skipped with only a logged
warning — the state, in particular any absent model, is left untouched.
Otherwise the fit (external sklearn code, passed as `fit`) replaces the
model.  The later `len(features) == 0` guard is unreachable once at least
100 sales exist, since every sale lands in some hourly bucket. -/
def trainModel (st : PredictorState) (salesData : List SaleRec)
    (fit : List SaleRec → RushModel) : PredictorState :=
  if salesData.length < 100 then st
  else { st with rush_model := some (fit salesData) }

/-- Source `RushPredictor.predict_rush_hours` (lines 195-245): returns the empty
list immediately when no model is loaded; otherwise produces one prediction
per hour of the horizon by evaluating the model on that hour's feature
vector (`features i`).  `range` of a non-positive horizon is empty, matching
Python. -/
def predictRushHours (st : PredictorState) (hours_ahead : Int)
    (features : Nat → List Int) : List Int :=
  match st.rush_model with
  | none => []
  | some m => (List.range hours_ahead.toNat).map (fun i => m.predictTransactions (features i))

/-- The predictions endpoint `get_rush_hour_predictions`
(src/app/api/v1/endpoints/predictions.py, lines 16-39): clamp hours_ahead to
168, call the predictor, and report both the predictions and the
hours_ahead actually used. -/
def getRushHourPredictions (st : PredictorState) (hours_ahead : Int)
    (features : Nat → List Int) : List Int × Int :=
  let h := if hours_ahead > 168 then 168 else hours_ahead
  (predictRushHours st h features, h)

/-- C9: with fewer than 100 historical data points, training is skipped
without error and leaves no model, and the prediction API then returns the
empty list for every horizon. -/
theorem insufficient_data_no_model (st : PredictorState) (data : List SaleRec)
    (fit : List SaleRec → RushModel) (h : Int) (feats : Nat → List Int)
    (hnone : st.rush_model = none) (hlen : data.length < 100) :
    (trainModel st data fit).rush_model = none ∧
    predictRushHours (trainModel st data fit) h feats = [] := by
  have ht : trainModel st data fit = st := by
    unfold trainModel
    rw [if_pos hlen]
  constructor
  · rw [ht]
    exact hnone
  · rw [ht]
    unfold predictRushHours
    rw [hnone]

/-- Witness for `insufficient_data_no_model`: a fresh predictor trained on an
empty history predicts nothing for a 24-hour horizon. -/
theorem insufficient_data_no_model_witness :
    predictRushHours
      (trainModel { rush_model := none } []
        (fun _ => { predictTransactions := fun _ => 0 })) 24 (fun _ => []) = [] :=
  (insufficient_data_no_model { rush_model := none } []
    (fun _ => { predictTransactions := fun _ => 0 }) 24 (fun _ => [])
    rfl (by decide)).2

/-- C8 (amended): the boundary clamps that exist are days ≤ 365,
hours_ahead ≤ 168 (so hours_ahead = 500 behaves exactly as 168) and the
stock-movements limit ≤ 500; but the limit of get_active_alerts is passed
through uncapped, so its result size is bounded only by the caller's limit
and the number of active alerts. -/
theorem boundary_clamps (days hours limit : Int) (st : PredictorState)
    (feats : Nat → List Int) (db : List Alert) (l : Nat) :
    clampStatisticsDays days ≤ 365 ∧
    clampHoursAhead hours ≤ 168 ∧
    getRushHourPredictions st 500 feats = getRushHourPredictions st 168 feats ∧
    clampMovementsLimit limit ≤ 500 ∧
    (getActiveAlerts db none none l).length =
      min l (db.filter (fun a => a.status == AlertStatus.active)).length := by
  refine ⟨?_, ?_, rfl, ?_, getActiveAlerts_length db l⟩
  · unfold clampStatisticsDays
    split <;> omega
  · unfold clampHoursAhead
    split <;> omega
  · unfold clampMovementsLimit
    split <;> omega

/-- Witness for `boundary_clamps` at concrete inputs: days = 400 is clamped
to 365, hours_ahead = 500 to 168, a movements limit of 1000 to 500. -/
theorem boundary_clamps_witness :
    clampStatisticsDays 400 ≤ 365 ∧ clampHoursAhead 500 ≤ 168 ∧
    clampMovementsLimit 1000 ≤ 500 :=
  have h := boundary_clamps 400 500 1000 { rush_model := none } (fun _ => []) [] 0
  ⟨h.1, h.2.1, h.2.2.2.1⟩

/-- The names bound at module scope of src/app/services/alert_dispatcher.py
(lines 1-16): the imports — note `from sqlalchemy import and_, desc` brings
in only those two names — plus the module-level `logger` and the class
itself.  `func` is not among them, and it is not a Python builtin. -/
def alertDispatcherModuleNames : List String :=
  ["asyncio", "logging", "json", "List", "Dict", "Any", "Optional",
   "datetime", "timedelta", "Session", "and_", "desc", "get_db_context",
   "cache_manager", "Alert", "AlertType", "AlertSeverity", "AlertStatus",
   "logger", "AlertDispatcher"]

/-- The statistics dictionary `get_alert_statistics` advertises
(src/app/services/alert_dispatcher.py, lines 312-324). -/
structure AlertStatistics where
  total_alerts : Nat
  active_alerts : Nat
  resolved_alerts : Nat
  by_type : List (AlertType × Nat)
  by_severity : List (AlertSeverity × Nat)
  deriving DecidableEq, Repr

/-- SQL GROUP BY with COUNT over the image of `f`: one row per distinct
value occurring in `l`. -/
def countsBy {β : Type} [DecidableEq β] (f : Alert → β) (l : List Alert) :
    List (β × Nat) :=
  ((l.map f).dedup).map (fun b => (b, (l.filter (fun a => decide (f a = b))).length))

/-- The queries of `get_alert_statistics` (lines 277-324), as they would
evaluate IF the name `func` resolved: counts by type and severity over the
alerts created in the window, plus active/resolved counts.  The window start
`now - 24 * days` uses this file's hour-valued instants. -/
def computeAlertStatistics (db : List Alert) (days now : Int) : AlertStatistics :=
  let start := now - 24 * days
  let recent := db.filter (fun a => decide (start ≤ a.created_at))
  { total_alerts := (countsBy Alert.alert_type recent).foldl (fun s p => s + p.2) 0,
    active_alerts := (recent.filter (fun a => a.status == AlertStatus.active)).length,
    resolved_alerts := (recent.filter (fun a => a.status == AlertStatus.resolved)).length,
    by_type := countsBy Alert.alert_type recent,
    by_severity := countsBy Alert.severity recent }

/-- Source `AlertDispatcher.get_alert_statistics` (lines 274-328): the try-body's
first query expression evaluates the name `func`; since the module binds no
such name (only `and_` and `desc` are imported from sqlalchemy), Python
raises NameError there, the blanket `except Exception` handler logs it and
returns the empty dictionary, modelled as `none`.  The statistics are
computed only in the counterfactual branch where `func` resolves. -/
def getAlertStatistics (db : List Alert) (days now : Int) : Option AlertStatistics :=
  if alertDispatcherModuleNames.contains "func" then
    some (computeAlertStatistics db days now)
  else
    none

/-- C10: for every store and every value of days, get_alert_statistics
returns the empty dictionary: the query bodies reference `func`, which is
never bound in alert_dispatcher.py, so the body raises NameError and the
handler returns {}. -/
theorem getAlertStatistics_always_empty (db : List Alert) (days now : Int) :
    getAlertStatistics db days now = none := rfl

/-- Witness for `cleanup_marks_flag_only` on a store holding one overdue
ACTIVE alert: the alert reappears with its is_expired flag raised. -/
theorem cleanup_marks_flag_only_witness :
    { alertActiveOverdue with is_expired := true } ∈
      (cleanupExpiredAlerts [alertActiveOverdue] 10).1 :=
  (cleanup_marks_flag_only [alertActiveOverdue] 10).2.1 alertActiveOverdue
    (List.mem_singleton.mpr rfl) (by decide)

end ShopTrack
